import Mathlib

/-!
Verification of the concurrent match registry and observer fan-out subsystem
of the tatic ASCII server (src/state.rs, src/routes.rs, src/websocket.rs).

The shared application state is embedded shallowly: the two
`Arc<RwLock<HashMap<..>>>` maps become association lists, `chrono::Utc::now()`
becomes a strictly monotone tick counter threaded through the state, and
`Uuid::new_v4()` becomes a fresh-nonce counter (each call yields a value that
no earlier call produced). The external game engine crate `tatic_lib` is not
part of this repository; its interface is modelled from the spec and the
engine's transition function is kept as an explicit parameter.
-/

namespace TaticServer

/-- `tatic_lib::PlayerId`, a string identifier. -/
abbrev PlayerId := String

/-- `pub type MatchId = String` (src/state.rs:10). -/
abbrev MatchId := String

/-- Modelled from the spec: the engine's `Action` type is opaque to this
subsystem (spec 1, 6); it is embedded as an abstract numeric code. -/
abbrev Action := Nat

/-- Modelled from the spec: `GameState` is opaque to this subsystem beyond
being serializable and carrying the identity fields set by the engine
constructor `new_game(player_a_id, player_b_id)` (spec 6). The fields
`players`, `turn`, `turn_count` and `phase` are the ones the glue layer reads
for logs and listings (src/routes.rs:124, 181-184); `board` stands for the
rest of the opaque state. -/
structure GameState where
  players : PlayerId × PlayerId
  turn : PlayerId
  turnCount : Nat
  phase : Nat
  board : Nat
deriving DecidableEq, Repr

/-- Modelled from the spec: `new_game(player_a, player_b) -> GameState`
(spec 6) builds the initial state for the two players; the repository's own
test `test_get_state` expects the initial `turn` to be player 1. -/
def GameState.new (p1 p2 : PlayerId) : GameState :=
  { players := (p1, p2), turn := p1, turnCount := 0, phase := 0, board := 0 }

/-- The engine's pure transition `apply_action(state, player, action) ->
Result<GameState, Error>` (spec 6), kept as a parameter: the server treats it
as a black box. Errors are the strings produced by `e.to_string()`. -/
abbrev Engine := GameState → PlayerId → Action → Except String GameState

/-- A serialized WebSocket payload. The code sends JSON strings built with
`serde_json::json!` (src/routes.rs:141-145, src/websocket.rs:54-58); the
serialization is modelled structurally, keeping the `type` tag and the data
the JSON carries. -/
inductive Msg where
  | initialState (mid : MatchId) (st : GameState)
  | stateUpdate (mid : MatchId) (st : GameState)
deriving DecidableEq, Repr

/-- Model of one `tokio::sync::mpsc::Sender<String>`: `closed` is true when
the receiving half is gone (a send then returns `Err`); `sent` is the ordered
sequence of messages the channel has accepted so far. -/
structure Sender where
  closed : Bool
  sent : List Msg
deriving DecidableEq, Repr

/-- `Match` (src/state.rs:14-19); `chrono::DateTime<Utc>` timestamps are
modelled as ticks of a strictly monotone clock. -/
structure Match where
  id : MatchId
  state : GameState
  created_at : Nat
  updated_at : Nat
deriving DecidableEq, Repr

/-- The match id built by `format!` from the fresh UUID
(src/state.rs:26), with `Uuid::new_v4()` modelled as the current value of the
fresh-nonce counter. -/
def mkId (k : Nat) : MatchId := "match-" ++ Nat.repr k

/-- `Match::new` (src/state.rs:23-31): one `chrono::Utc::now()` call supplies
both timestamps, one `Uuid::new_v4()` call supplies the id. `now` and `uuid`
are the ambient counter values at the call. -/
def Match.new (now uuid : Nat) (p1 p2 : PlayerId) : Match :=
  { id := mkId uuid
    state := GameState.new p1 p2
    created_at := now
    updated_at := now }

/-- Association-list lookup, the model of `HashMap::get`. -/
def lookupA {α : Type} (k : MatchId) : List (MatchId × α) → Option α
  | [] => none
  | p :: rest => if p.1 = k then some p.2 else lookupA k rest

/-- Association-list insert-or-replace, the model of `HashMap::insert`. -/
def insertA {α : Type} (k : MatchId) (v : α) : List (MatchId × α) → List (MatchId × α)
  | [] => [(k, v)]
  | p :: rest => if p.1 = k then (k, v) :: rest else p :: insertA k v rest

/-- In-place modification of the entry under `k` (if any), the model of
`HashMap::get_mut` followed by field writes. -/
def adjustA {α : Type} (k : MatchId) (f : α → α) : List (MatchId × α) → List (MatchId × α)
  | [] => []
  | p :: rest => if p.1 = k then (p.1, f p.2) :: rest else p :: adjustA k f rest

/-- Model of `AppState` (src/state.rs:36-41). `clock` models
`chrono::Utc::now()` as a strictly monotone tick counter and `uuidCtr` models
`Uuid::new_v4()` as a fresh-nonce counter; both are ambient in the real
program and are threaded through the state here for determinism. -/
structure AppState where
  matchesMap : List (MatchId × Match)
  observers : List (MatchId × List Sender)
  clock : Nat
  uuidCtr : Nat
deriving DecidableEq, Repr

/-- `get_match` (src/state.rs:80-82): a lookup under a read lock, returning a
clone; the store is not modified (the model returns no new state). -/
def getMatch (s : AppState) (mid : MatchId) : Option Match :=
  lookupA mid s.matchesMap

/-- `update_match` (src/state.rs:85-91): if the id exists, replace its state
and set `updated_at` from `now()`; an absent id is a silent no-op (`now()` is
only called in the present branch, so the clock only ticks there). -/
def updateMatch (s : AppState) (mid : MatchId) (ns : GameState) : AppState :=
  match lookupA mid s.matchesMap with
  | none => s
  | some _ =>
    { s with
      matchesMap :=
        adjustA mid (fun m => { m with state := ns, updated_at := s.clock }) s.matchesMap
      clock := s.clock + 1 }

/-- `create_match` (src/state.rs:94-101): build a fresh `Match`, insert it,
return its id. One `now()` tick and one fresh uuid are consumed. -/
def createMatch (s : AppState) (p1 p2 : PlayerId) : MatchId × AppState :=
  let m := Match.new s.clock s.uuidCtr p1 p2
  (m.id,
   { s with
     matchesMap := insertA m.id m s.matchesMap
     clock := s.clock + 1
     uuidCtr := s.uuidCtr + 1 })

/-- `list_matches` (src/state.rs:104-106): the current keys. -/
def listMatches (s : AppState) : List MatchId :=
  s.matchesMap.map Prod.fst

/-- One `sender.send(message.clone()).await` (src/state.rs:115): a send on a
closed channel returns `Err`, which the caller ignores (`let _ = ...`) and
which leaves the channel untouched; a send on an open channel enqueues the
message (a full bounded channel awaits capacity rather than dropping, so an
accepted send always appends). -/
def sendMsg (msg : Msg) (c : Sender) : Sender :=
  if c.closed then c else { c with sent := c.sent ++ [msg] }

/-- `notify_observers` (src/state.rs:109-118): under a read lock, if the match
id has a sender list, send the message to every sender in it; errors are
ignored and the registry itself is never modified (no sender is removed). -/
def notifyObservers (s : AppState) (mid : MatchId) (msg : Msg) : AppState :=
  { s with observers := adjustA mid (List.map (sendMsg msg)) s.observers }

/-- The send loop of `notify_observers` (src/state.rs:114-116) with the
receiver side made explicit: the sends are awaited one at a time, in
registration order. `full c = true` marks a channel whose bounded buffer
(capacity 100, src/websocket.rs:47) is full with a receiver that does not
drain for the duration of the call. A send to a closed channel returns `Err`
at once, which is ignored, and the loop continues; a send to an open channel
with buffer room is accepted; a send to a stalled full channel awaits
capacity that never frees in this interleaving, so the loop suspends there
and the channels after it in the collection receive nothing within the call.
`notifyObservers` above is the completed-call instance in which every send is
eventually accepted (no channel stalled). -/
def deliverSeq (msg : Msg) (full : Sender → Bool) : List Sender → List Sender
  | [] => []
  | c :: rest =>
    if c.closed then c :: deliverSeq msg full rest
    else if full c then c :: rest
    else { c with sent := c.sent ++ [msg] } :: deliverSeq msg full rest

/-- `notify_observers` (src/state.rs:109-118) under the interleaving in which
the receivers of the channels marked by `full` stay stalled with full buffers
for the whole call; with no channel marked, this coincides with
`notifyObservers`. -/
def notifyObserversSeq (s : AppState) (mid : MatchId) (msg : Msg)
    (full : Sender → Bool) : AppState :=
  { s with observers := adjustA mid (deliverSeq msg full) s.observers }

/-- `observers.entry(match_id).or_insert_with(Vec::new).push(sender)`
(src/state.rs:127): append the sender to the id's list, creating it if
absent. -/
def pushObserver (mid : MatchId) (tx : Sender) :
    List (MatchId × List Sender) → List (MatchId × List Sender)
  | [] => [(mid, [tx])]
  | p :: rest => if p.1 = mid then (p.1, p.2 ++ [tx]) :: rest else p :: pushObserver mid tx rest

/-- `add_observer` (src/state.rs:121-128). -/
def addObserver (s : AppState) (mid : MatchId) (tx : Sender) : AppState :=
  { s with observers := pushObserver mid tx s.observers }

/-- The three hardcoded example matches of `init_example_matches`
(src/state.rs:59-63), built synchronously (three `Match::new` calls, consuming
three clock ticks and three fresh uuids) before the insertion task is
spawned. -/
def exampleMatches (c k : Nat) : List Match :=
  [Match.new c k "alice" "bob",
   Match.new (c + 1) (k + 1) "player1" "player2",
   Match.new (c + 2) (k + 2) "human" "ai"]

/-- `AppState::new` (src/state.rs:45-55): the returned value holds empty maps;
`init_example_matches` (58-77) builds the example matches and hands them to a
`tokio::spawn`ed task, modelled as the second component — only a later run of
`runInitTask` puts them into the store. -/
def AppState.new (c k : Nat) : AppState × List Match :=
  ({ matchesMap := [], observers := [], clock := c + 3, uuidCtr := k + 3 },
   exampleMatches c k)

/-- The body of the task spawned by `init_example_matches` (src/state.rs:68-76):
insert each prepared match into the store under its id. -/
def runInitTask (s : AppState) (pending : List Match) : AppState :=
  { s with matchesMap := pending.foldl (fun ms m => insertA m.id m ms) s.matchesMap }

/-- The response of `post_action_handler` (src/routes.rs:100-167): 200 with the
new state, 404, or 400 with the engine's error string verbatim. -/
inductive ActionResponse where
  | ok (st : GameState)
  | notFound (mid : MatchId)
  | badRequest (err : String)
deriving DecidableEq, Repr

/-- Observable steps of one `post_action_handler` run, recorded in program
order: the commit to the Match Store, the notification hand-off, and the
response to the caller. -/
inductive Event where
  | commit (mid : MatchId) (st : GameState)
  | notify (mid : MatchId) (msg : Msg)
  | respond (r : ActionResponse)
deriving DecidableEq, Repr

/-- `post_action_handler` (src/routes.rs:100-167), parametric in the engine's
`apply_action`: fetch the match (absence returns 404 before the engine is
consulted); apply the action; on success commit via `update_match`, then
notify observers with a `state_update` payload, then produce the success
response; on engine error produce the 400 response with the store and the
observers untouched. The trace lists the events in program order. -/
def postAction (eng : Engine) (s : AppState) (mid : MatchId) (pid : PlayerId)
    (act : Action) : AppState × ActionResponse × List Event :=
  match getMatch s mid with
  | none => (s, .notFound mid, [.respond (.notFound mid)])
  | some m =>
    match eng m.state pid act with
    | .ok ns =>
      let s1 := updateMatch s mid ns
      let s2 := notifyObservers s1 mid (.stateUpdate mid ns)
      (s2, .ok ns,
       [.commit mid ns, .notify mid (.stateUpdate mid ns), .respond (.ok ns)])
    | .error e => (s, .badRequest e, [.respond (.badRequest e)])

/-- The connect phase of `handle_websocket` (src/websocket.rs:44-68): a fresh
open channel is registered via `add_observer`, then, only if the match exists,
an `initial_state` frame is written directly to the socket. -/
def wsConnect (s : AppState) (mid : MatchId) : AppState × Option Msg :=
  match getMatch (addObserver s mid { closed := false, sent := [] }) mid with
  | some m =>
    (addObserver s mid { closed := false, sent := [] }, some (.initialState mid m.state))
  | none => (addObserver s mid { closed := false, sent := [] }, none)

/-- The broadcast-forwarding task of `handle_websocket` (src/websocket.rs:71-78):
each message received from the channel becomes one outbound socket frame, in
arrival order, stopping at the first socket send error; `okFrame` tells which
socket sends succeed. -/
def forwardFrames (okFrame : Msg → Bool) : List Msg → List Msg
  | [] => []
  | m :: rest => if okFrame m then m :: forwardFrames okFrame rest else []

/-- Sequential `POST /action` calls on one match (each call completes before
the next starts). -/
def runActions (eng : Engine) (s : AppState) (mid : MatchId) :
    List (PlayerId × Action) → AppState
  | [] => s
  | pa :: rest => runActions eng (postAction eng s mid pa.1 pa.2).1 mid rest

/-- The sequence of states the engine commits when it accepts every action of
the list in turn, starting from `st`; `none` when some action is rejected. -/
def engineRun (eng : Engine) (st : GameState) :
    List (PlayerId × Action) → Option (List GameState)
  | [] => some []
  | pa :: rest =>
    match eng st pa.1 pa.2 with
    | .ok ns => (engineRun eng ns rest).map (ns :: ·)
    | .error _ => none

/-! ### Decimal rendering: injectivity of `Nat.repr`

`mkId` renders the fresh-nonce counter through `Nat.repr`; the freshness
claims need distinct counters to yield distinct ids, i.e. `Nat.repr` (and
hence `mkId`) injective. -/

/-- Big-endian decimal digit list of `n`: the functional reading of
`Nat.toDigitsCore` at base 10. -/
def decDigits (n : Nat) : List Char :=
  if h : n < 10 then [Nat.digitChar n]
  else decDigits (n / 10) ++ [Nat.digitChar (n % 10)]
decreasing_by exact Nat.div_lt_self (by omega) (by omega)

/-- Numeric value of a decimal digit character. -/
def digitVal (c : Char) : Nat := c.toNat - 48

/-- Parse a big-endian decimal digit list back to its value. -/
def decVal (l : List Char) : Nat :=
  List.foldl (fun x c => x * 10 + digitVal c) 0 l

/-! ### Concrete fixtures for evaluations -/

/-- A deterministic engine for concrete evaluations: it accepts every action
and bumps the opaque turn counter. -/
def engOk : Engine := fun st _ _ => Except.ok { st with turnCount := st.turnCount + 1 }

/-- An engine that rejects every action, for concrete evaluations. -/
def engErr : Engine := fun _ _ _ => Except.error "illegal action"

/-- A concrete game state. -/
def g0 : GameState := GameState.new "alice" "bob"

/-- `g0` after one `engOk` step. -/
def ns0 : GameState := { g0 with turnCount := 1 }

/-- A concrete stored match. -/
def m0 : Match := { id := "m1", state := g0, created_at := 0, updated_at := 0 }

/-- A fresh open observer channel. -/
def txOpen : Sender := { closed := false, sent := [] }

/-- A concrete application state: one match, one open observer. -/
def s0 : AppState :=
  { matchesMap := [("m1", m0)], observers := [("m1", [txOpen])], clock := 5, uuidCtr := 2 }

/-- A closed observer channel (its receiver is gone, sends fail). -/
def txClosed : Sender := { closed := true, sent := [] }

/-- A concrete registry: a closed and an open channel under `"m1"`, an open
channel under `"m2"`. -/
def obsMix : List (MatchId × List Sender) :=
  [("m1", [txClosed, txOpen]), ("m2", [txOpen])]

/-- A concrete application state around `obsMix`. -/
def sMix : AppState :=
  { matchesMap := [], observers := obsMix, clock := 0, uuidCtr := 0 }

/-- A concrete notification payload. -/
def msg0 : Msg := .stateUpdate "m1" g0

/-- An open channel whose buffer already holds one accepted message and whose
receiver is stalled: its next awaited send never completes. -/
def txStalled : Sender := { closed := false, sent := [msg0] }

/-- Marks exactly `txStalled` as full-with-stalled-receiver at call time. -/
def fullStalled : Sender → Bool := fun c => c == txStalled

/-- A concrete application state: the stalled channel registered ahead of a
healthy open channel under the same match id. -/
def sStall : AppState :=
  { matchesMap := [], observers := [("m1", [txStalled, txOpen])], clock := 0, uuidCtr := 0 }

/-- `g0` after two `engOk` steps. -/
def g2 : GameState := { g0 with turnCount := 2 }

/-- A concrete initial state for players `("x", "y")`. -/
def gxy : GameState := GameState.new "x" "y"

/-- `gxy` after one `engOk` step. -/
def nsxy : GameState := { gxy with turnCount := 1 }

theorem decDigits_lt {n : Nat} (h : n < 10) : decDigits n = [Nat.digitChar n] := by
  rw [decDigits]
  simp [h]

theorem decDigits_ge {n : Nat} (h : 10 ≤ n) :
    decDigits n = decDigits (n / 10) ++ [Nat.digitChar (n % 10)] := by
  rw [decDigits]
  simp [Nat.not_lt.2 h]

theorem digitVal_digitChar : ∀ d : Nat, d < 10 → digitVal (Nat.digitChar d) = d := by
  decide

theorem foldl_decDigits :
    ∀ n a : Nat,
      List.foldl (fun x c => x * 10 + digitVal c) a (decDigits n)
        = a * 10 ^ (decDigits n).length + n := by
  intro n
  induction n using Nat.strong_induction_on with
  | _ n ih =>
    intro a
    by_cases h : n < 10
    · rw [decDigits_lt h]
      simp [digitVal_digitChar n h]
    · have h10 : 10 ≤ n := Nat.not_lt.1 h
      rw [decDigits_ge h10, List.foldl_append,
        ih (n / 10) (Nat.div_lt_self (by omega) (by omega)) a]
      simp only [List.foldl_cons, List.foldl_nil, List.length_append, List.length_cons,
        List.length_nil]
      rw [digitVal_digitChar (n % 10) (Nat.mod_lt n (by omega))]
      calc (a * 10 ^ (decDigits (n / 10)).length + n / 10) * 10 + n % 10
          = a * (10 ^ (decDigits (n / 10)).length * 10) + (10 * (n / 10) + n % 10) := by ring
        _ = a * 10 ^ ((decDigits (n / 10)).length + 1) + n := by
            rw [Nat.div_add_mod, pow_succ]

theorem decVal_decDigits (n : Nat) : decVal (decDigits n) = n := by
  have h := foldl_decDigits n 0
  simpa [decVal] using h

theorem decDigits_injective : Function.Injective decDigits := by
  intro m n h
  have hv : decVal (decDigits m) = decVal (decDigits n) := by rw [h]
  simpa [decVal_decDigits] using hv

theorem toDigitsCore_eq :
    ∀ (f n : Nat) (acc : List Char), n < f →
      Nat.toDigitsCore 10 f n acc = decDigits n ++ acc := by
  intro f
  induction f with
  | zero => intro n acc h; omega
  | succ f ih =>
    intro n acc h
    show Nat.toDigitsCore 10 (f + 1) n acc = decDigits n ++ acc
    by_cases hz : n / 10 = 0
    · have hlt : n < 10 := by
        rcases Nat.lt_or_ge n 10 with h' | h'
        · exact h'
        · exact absurd hz (by
            have : 1 ≤ n / 10 := Nat.le_div_iff_mul_le (by omega) |>.2 (by omega)
            omega)
      simp only [Nat.toDigitsCore, hz, if_true]
      rw [decDigits_lt hlt, Nat.mod_eq_of_lt hlt]
      rfl
    · have hge : 10 ≤ n := by
        rcases Nat.lt_or_ge n 10 with h' | h'
        · exact absurd (Nat.div_eq_of_lt h') hz
        · exact h'
      have hdf : n / 10 < f :=
        Nat.lt_of_lt_of_le (Nat.div_lt_self (by omega) (by omega)) (by omega)
      simp only [Nat.toDigitsCore, hz, if_false]
      rw [ih (n / 10) (Nat.digitChar (n % 10) :: acc) hdf, decDigits_ge hge,
        List.append_assoc]
      rfl

theorem repr_eq_decDigits (n : Nat) : Nat.repr n = (decDigits n).asString := by
  show (Nat.toDigits 10 n).asString = (decDigits n).asString
  rw [Nat.toDigits, toDigitsCore_eq (n + 1) n [] (by omega), List.append_nil]

theorem asString_injective : Function.Injective List.asString := by
  intro l1 l2 h
  simpa [List.asString] using congrArg String.data h

theorem natRepr_injective : Function.Injective Nat.repr := by
  intro m n h
  apply decDigits_injective
  apply asString_injective
  rw [← repr_eq_decDigits, ← repr_eq_decDigits, h]

theorem mkId_injective : Function.Injective mkId := by
  intro j k h
  apply natRepr_injective
  have hd := congrArg String.data h
  simp only [mkId, String.data_append] at hd
  have hrepr : (Nat.repr j).data = (Nat.repr k).data :=
    List.append_cancel_left hd
  exact String.ext hrepr

/-! ### Association-list lemmas -/

theorem lookupA_adjustA_self {α : Type} (k : MatchId) (f : α → α) :
    ∀ l : List (MatchId × α), lookupA k (adjustA k f l) = (lookupA k l).map f := by
  intro l
  induction l with
  | nil => rfl
  | cons p rest ih =>
    by_cases h : p.1 = k
    · simp [adjustA, lookupA, h]
    · simp [adjustA, lookupA, h, ih]

theorem lookupA_adjustA_ne {α : Type} {k k' : MatchId} (f : α → α) (h : k' ≠ k) :
    ∀ l : List (MatchId × α), lookupA k (adjustA k' f l) = lookupA k l := by
  intro l
  induction l with
  | nil => rfl
  | cons p rest ih =>
    by_cases hp : p.1 = k'
    · have : ¬ p.1 = k := by rw [hp]; exact h
      simp [adjustA, lookupA, hp, this, h]
    · simp only [adjustA, hp, if_false, lookupA]
      by_cases hk : p.1 = k
      · simp [hk]
      · simp [hk, ih]

theorem lookupA_insertA_self {α : Type} (k : MatchId) (v : α) :
    ∀ l : List (MatchId × α), lookupA k (insertA k v l) = some v := by
  intro l
  induction l with
  | nil => simp [insertA, lookupA]
  | cons p rest ih =>
    by_cases h : p.1 = k
    · simp [insertA, lookupA, h]
    · simp [insertA, lookupA, h, ih]

theorem lookupA_insertA_ne {α : Type} {k k' : MatchId} (v : α) (h : k' ≠ k) :
    ∀ l : List (MatchId × α), lookupA k (insertA k' v l) = lookupA k l := by
  intro l
  induction l with
  | nil => simp [insertA, lookupA, h]
  | cons p rest ih =>
    by_cases hp : p.1 = k'
    · have hk : ¬ p.1 = k := by rw [hp]; exact h
      simp [insertA, lookupA, hp, hk, h]
    · simp only [insertA, hp, if_false, lookupA]
      by_cases hk : p.1 = k
      · simp [hk]
      · simp [hk, ih]

theorem lookupA_pushObserver_self (mid : MatchId) (tx : Sender) :
    ∀ l : List (MatchId × List Sender),
      lookupA mid (pushObserver mid tx l) = some (((lookupA mid l).getD []) ++ [tx]) := by
  intro l
  induction l with
  | nil => simp [pushObserver, lookupA]
  | cons p rest ih =>
    by_cases h : p.1 = mid
    · simp [pushObserver, lookupA, h]
    · simp [pushObserver, lookupA, h, ih]

theorem lookupA_pushObserver_ne {mid k : MatchId} (tx : Sender) (h : mid ≠ k) :
    ∀ l : List (MatchId × List Sender),
      lookupA k (pushObserver mid tx l) = lookupA k l := by
  intro l
  induction l with
  | nil => simp [pushObserver, lookupA, h]
  | cons p rest ih =>
    by_cases hp : p.1 = mid
    · have hk : ¬ p.1 = k := by rw [hp]; exact h
      simp [pushObserver, lookupA, hp, hk, h]
    · simp only [pushObserver, hp, if_false, lookupA]
      by_cases hk : p.1 = k
      · simp [hk]
      · simp [hk, ih]

theorem adjustA_map_fst {α : Type} (k : MatchId) (f : α → α) :
    ∀ l : List (MatchId × α), (adjustA k f l).map Prod.fst = l.map Prod.fst := by
  intro l
  induction l with
  | nil => rfl
  | cons p rest ih =>
    by_cases h : p.1 = k
    · simp [adjustA, h]
    · simp [adjustA, h, ih]

/-! ### Effect lemmas for the store and registry operations -/

theorem getMatch_updateMatch_self {s : AppState} {mid : MatchId} {m : Match}
    (ns : GameState) (hm : getMatch s mid = some m) :
    getMatch (updateMatch s mid ns) mid
      = some { m with state := ns, updated_at := s.clock } := by
  unfold getMatch at hm ⊢
  unfold updateMatch
  rw [hm]
  simp [lookupA_adjustA_self, hm]

theorem getMatch_updateMatch_ne {s : AppState} {mid k : MatchId}
    (ns : GameState) (h : mid ≠ k) :
    getMatch (updateMatch s mid ns) k = getMatch s k := by
  unfold getMatch updateMatch
  cases hl : lookupA mid s.matchesMap with
  | none => rfl
  | some m => simp [lookupA_adjustA_ne _ h]

theorem updateMatch_observers (s : AppState) (mid : MatchId) (ns : GameState) :
    (updateMatch s mid ns).observers = s.observers := by
  unfold updateMatch
  cases lookupA mid s.matchesMap <;> rfl

theorem updateMatch_absent {s : AppState} {mid : MatchId} (ns : GameState)
    (h : getMatch s mid = none) : updateMatch s mid ns = s := by
  unfold getMatch at h
  unfold updateMatch
  rw [h]

theorem updateMatch_clock {s : AppState} {mid : MatchId} {m : Match}
    (ns : GameState) (hm : getMatch s mid = some m) :
    (updateMatch s mid ns).clock = s.clock + 1 := by
  unfold getMatch at hm
  unfold updateMatch
  rw [hm]

theorem notifyObservers_matchesMap (s : AppState) (mid : MatchId) (msg : Msg) :
    (notifyObservers s mid msg).matchesMap = s.matchesMap := rfl

theorem notifyObservers_lookup_self (s : AppState) (mid : MatchId) (msg : Msg) :
    lookupA mid (notifyObservers s mid msg).observers
      = (lookupA mid s.observers).map (List.map (sendMsg msg)) :=
  lookupA_adjustA_self mid (List.map (sendMsg msg)) s.observers

theorem addObserver_matchesMap (s : AppState) (mid : MatchId) (tx : Sender) :
    (addObserver s mid tx).matchesMap = s.matchesMap := rfl

theorem addObserver_uuidCtr (s : AppState) (mid : MatchId) (tx : Sender) :
    (addObserver s mid tx).uuidCtr = s.uuidCtr := rfl

theorem createMatch_observers (s : AppState) (p1 p2 : PlayerId) :
    ((createMatch s p1 p2).2).observers = s.observers := rfl

theorem sendMsg_open {tx : Sender} (msg : Msg) (h : tx.closed = false) :
    sendMsg msg tx = { closed := false, sent := tx.sent ++ [msg] } := by
  cases tx with
  | mk cl sent => cases cl <;> simp_all [sendMsg]

theorem sendMsg_closed {tx : Sender} (msg : Msg) (h : tx.closed = true) :
    sendMsg msg tx = tx := by
  simp [sendMsg, h]

theorem forwardFrames_healthy :
    ∀ l : List Msg, forwardFrames (fun _ => true) l = l := by
  intro l
  induction l with
  | nil => rfl
  | cons m rest ih => simp [forwardFrames, ih]

theorem engineRun_length (eng : Engine) :
    ∀ (acts : List (PlayerId × Action)) (st : GameState) (sts : List GameState),
      engineRun eng st acts = some sts → sts.length = acts.length := by
  intro acts
  induction acts with
  | nil =>
    intro st sts h
    simp [engineRun] at h
    simp [← h]
  | cons pa rest ih =>
    intro st sts h
    unfold engineRun at h
    cases heng : eng st pa.1 pa.2 with
    | ok ns =>
      rw [heng] at h
      change (engineRun eng ns rest).map (ns :: ·) = some sts at h
      cases hrest : engineRun eng ns rest with
      | none => rw [hrest] at h; simp at h
      | some sts' =>
        rw [hrest] at h
        simp at h
        rw [← h]
        simp [ih ns sts' hrest]
    | error e => rw [heng] at h; simp at h

theorem deliverSeq_length (msg : Msg) (full : Sender → Bool) :
    ∀ l : List Sender, (deliverSeq msg full l).length = l.length := by
  intro l
  induction l with
  | nil => rfl
  | cons c rest ih =>
    cases hcl : c.closed with
    | true => simp [deliverSeq, hcl, ih]
    | false =>
      cases hf : full c with
      | true => simp [deliverSeq, hcl, hf]
      | false => simp [deliverSeq, hcl, hf, ih]

theorem deliverSeq_closed_get (msg : Msg) (full : Sender → Bool) :
    ∀ (l : List Sender) (j : Nat) (c : Sender),
      l.get? j = some c → c.closed = true →
      (deliverSeq msg full l).get? j = some c := by
  intro l
  induction l with
  | nil => intro j c hj _; simp at hj
  | cons e rest ih =>
    intro j c hj hc
    cases hecl : e.closed with
    | true =>
      cases j with
      | zero =>
        rw [List.get?_cons_zero] at hj
        injection hj with hj
        subst hj
        simp [deliverSeq, hecl]
      | succ j =>
        rw [List.get?_cons_succ] at hj
        simp only [deliverSeq, hecl, if_true, List.get?_cons_succ]
        exact ih j c hj hc
    | false =>
      cases hef : full e with
      | true =>
        have hres : deliverSeq msg full (e :: rest) = e :: rest := by
          simp [deliverSeq, hecl, hef]
        rw [hres]
        exact hj
      | false =>
        cases j with
        | zero =>
          rw [List.get?_cons_zero] at hj
          injection hj with hj
          subst hj
          rw [hecl] at hc
          exact absurd hc (by simp)
        | succ j =>
          rw [List.get?_cons_succ] at hj
          simp only [deliverSeq, hecl, hef, if_false, Bool.false_eq_true,
            List.get?_cons_succ]
          exact ih j c hj hc

theorem deliverSeq_no_full (msg : Msg) (full : Sender → Bool) :
    ∀ l : List Sender, (∀ c ∈ l, full c = false) →
      deliverSeq msg full l = l.map (sendMsg msg) := by
  intro l
  induction l with
  | nil => intro _; rfl
  | cons c rest ih =>
    intro h
    have hc := h c (by simp)
    have hr : ∀ e ∈ rest, full e = false := fun e he => h e (by simp [he])
    cases hcl : c.closed with
    | true => simp [deliverSeq, hcl, ih hr, sendMsg]
    | false => simp [deliverSeq, hcl, hc, ih hr, sendMsg]

theorem deliverSeq_blocked (msg : Msg) (full : Sender → Bool) :
    ∀ (l1 : List Sender) (c : Sender) (l2 : List Sender),
      (∀ e ∈ l1, e.closed = true ∨ full e = false) →
      c.closed = false → full c = true →
      deliverSeq msg full (l1 ++ c :: l2) = deliverSeq msg full l1 ++ c :: l2 := by
  intro l1
  induction l1 with
  | nil =>
    intro c l2 _ hc hf
    simp [deliverSeq, hc, hf]
  | cons e rest ih =>
    intro c l2 h hc hf
    have he := h e (by simp)
    have hrest : ∀ x ∈ rest, x.closed = true ∨ full x = false :=
      fun x hx => h x (by simp [hx])
    cases hecl : e.closed with
    | true => simp [deliverSeq, hecl, ih c l2 hrest hc hf]
    | false =>
      have hef : full e = false := by
        cases he with
        | inl h1 =>
          rw [hecl] at h1
          exact absurd h1 (by simp)
        | inr h1 => exact h1
      simp [deliverSeq, hecl, hef, ih c l2 hrest hc hf]

theorem notifyObserversSeq_no_stall (s : AppState) (mid : MatchId) (msg : Msg) :
    notifyObserversSeq s mid msg (fun _ => false) = notifyObservers s mid msg := by
  unfold notifyObserversSeq notifyObservers
  have h : deliverSeq msg (fun _ => false) = fun l => l.map (sendMsg msg) := by
    funext l
    exact deliverSeq_no_full msg (fun _ => false) l (fun _ _ => rfl)
  rw [h]

theorem wsConnect_absent {s : AppState} {mid : MatchId} (h : getMatch s mid = none) :
    wsConnect s mid = (addObserver s mid { closed := false, sent := [] }, none) := by
  have h1 : getMatch (addObserver s mid { closed := false, sent := [] }) mid = none := h
  unfold wsConnect
  rw [h1]

theorem runActions_observer_stream (eng : Engine) (mid : MatchId) :
    ∀ (acts : List (PlayerId × Action)) (s : AppState) (m : Match)
      (sts : List GameState) (l : List Sender) (j : Nat) (tx : Sender),
      getMatch s mid = some m →
      engineRun eng m.state acts = some sts →
      lookupA mid s.observers = some l →
      l.get? j = some tx →
      tx.closed = false →
      ∃ l', lookupA mid (runActions eng s mid acts).observers = some l'
        ∧ l'.get? j = some { closed := false,
                             sent := tx.sent ++ sts.map (Msg.stateUpdate mid) } := by
  intro acts
  induction acts with
  | nil =>
    intro s m sts l j tx hm hrun hobs hj hop
    refine ⟨l, hobs, ?_⟩
    simp [engineRun] at hrun
    have htx : ({ closed := false, sent := tx.sent ++ sts.map (Msg.stateUpdate mid) }
        : Sender) = tx := by
      cases tx
      simp_all
    rw [htx]
    exact hj
  | cons pa rest ih =>
    intro s m sts l j tx hm hrun hobs hj hop
    unfold engineRun at hrun
    cases heng : eng m.state pa.1 pa.2 with
    | error e => rw [heng] at hrun; simp at hrun
    | ok ns =>
      rw [heng] at hrun
      change (engineRun eng ns rest).map (ns :: ·) = some sts at hrun
      cases hrest : engineRun eng ns rest with
      | none => rw [hrest] at hrun; simp at hrun
      | some sts' =>
        rw [hrest] at hrun
        simp at hrun
        subst hrun
        have hstep : (postAction eng s mid pa.1 pa.2).1
            = notifyObservers (updateMatch s mid ns) mid (.stateUpdate mid ns) := by
          simp [postAction, hm, heng]
        have hm' : getMatch (postAction eng s mid pa.1 pa.2).1 mid
            = some { m with state := ns, updated_at := s.clock } := by
          rw [hstep]
          exact getMatch_updateMatch_self ns hm
        have hobs' : lookupA mid ((postAction eng s mid pa.1 pa.2).1).observers
            = some (l.map (sendMsg (.stateUpdate mid ns))) := by
          rw [hstep]
          show lookupA mid
            (adjustA mid (List.map (sendMsg (.stateUpdate mid ns)))
              (updateMatch s mid ns).observers) = _
          rw [updateMatch_observers, lookupA_adjustA_self, hobs]
          rfl
        have hj' : (l.map (sendMsg (.stateUpdate mid ns))).get? j
            = some { closed := false, sent := tx.sent ++ [.stateUpdate mid ns] } := by
          rw [List.get?_map, hj]
          simp [sendMsg_open _ hop]
        obtain ⟨l', hl', hjl'⟩ :=
          ih (postAction eng s mid pa.1 pa.2).1
            { m with state := ns, updated_at := s.clock } sts'
            (l.map (sendMsg (.stateUpdate mid ns))) j
            { closed := false, sent := tx.sent ++ [.stateUpdate mid ns] }
            hm' hrest hobs' hj' rfl
        refine ⟨l', hl', ?_⟩
        have happ : tx.sent ++ (ns :: sts').map (Msg.stateUpdate mid)
            = (tx.sent ++ [Msg.stateUpdate mid ns]) ++ sts'.map (Msg.stateUpdate mid) := by
          simp
        rw [happ]
        exact hjl'

/-! ### Claim theorems -/

/-- C1: for every `POST /action` on an existing match whose engine transition
succeeds, the handler equals the commit (`update_match`) followed by the
notification (`notify_observers`) followed by the success response: the event
trace lists commit, then notify, then respond, in that order, and the store
state the notifier runs on already contains the committed new state, so no
observer is delivered a state the Match Store does not already hold and no
caller-visible success precedes the commit. -/
theorem C1_commit_then_notify
    (eng : Engine) (s : AppState) (mid : MatchId) (pid : PlayerId) (act : Action)
    (m : Match) (ns : GameState)
    (hm : getMatch s mid = some m) (heng : eng m.state pid act = Except.ok ns) :
    postAction eng s mid pid act
      = (notifyObservers (updateMatch s mid ns) mid (.stateUpdate mid ns), .ok ns,
         [.commit mid ns, .notify mid (.stateUpdate mid ns), .respond (.ok ns)])
    ∧ (getMatch (updateMatch s mid ns) mid).map Match.state = some ns := by
  refine ⟨by simp [postAction, hm, heng], ?_⟩
  rw [getMatch_updateMatch_self ns hm]
  rfl

/-- Witness for C1 at a concrete state, engine and action. -/
theorem C1_commit_then_notify_witness :
    postAction engOk s0 "m1" "alice" 0
      = (notifyObservers (updateMatch s0 "m1" ns0) "m1" (.stateUpdate "m1" ns0), .ok ns0,
         [.commit "m1" ns0, .notify "m1" (.stateUpdate "m1" ns0), .respond (.ok ns0)])
    ∧ (getMatch (updateMatch s0 "m1" ns0) "m1").map Match.state = some ns0 :=
  C1_commit_then_notify engOk s0 "m1" "alice" 0 m0 ns0 (by decide) (by rfl)

/-- C2: when the engine rejects the action on an existing match, the caller
receives the engine's error verbatim (400), and the handler's resulting
application state is exactly the input state: the match's stored state and
`updated_at` are untouched and no observer channel receives anything. -/
theorem C2_engine_error_no_effect
    (eng : Engine) (s : AppState) (mid : MatchId) (pid : PlayerId) (act : Action)
    (m : Match) (e : String)
    (hm : getMatch s mid = some m) (heng : eng m.state pid act = Except.error e) :
    postAction eng s mid pid act = (s, .badRequest e, [.respond (.badRequest e)]) := by
  simp [postAction, hm, heng]

/-- Witness for C2 at a concrete state and rejecting engine. -/
theorem C2_engine_error_no_effect_witness :
    postAction engErr s0 "m1" "alice" 0
      = (s0, .badRequest "illegal action", [.respond (.badRequest "illegal action")]) :=
  C2_engine_error_no_effect engErr s0 "m1" "alice" 0 m0 "illegal action"
    (by decide) (by rfl)

/-- C5: for a match id absent from the store, the mutation handler returns
`NotFound`, leaves the entire application state unchanged (so no store
modification and no notification), and never consults the engine: its result
is the same for any two engines. `get` itself is the pure lookup `getMatch`,
which returns no new state at all. -/
theorem C5_absent_not_found
    (eng eng' : Engine) (s : AppState) (mid : MatchId) (pid : PlayerId) (act : Action)
    (h : getMatch s mid = none) :
    postAction eng s mid pid act = (s, .notFound mid, [.respond (.notFound mid)])
    ∧ postAction eng s mid pid act = postAction eng' s mid pid act := by
  constructor <;> simp [postAction, h]

/-- Witness for C5 at a concrete state and absent id. -/
theorem C5_absent_not_found_witness :
    postAction engOk s0 "nope" "alice" 0
      = (s0, .notFound "nope", [.respond (.notFound "nope")])
    ∧ postAction engOk s0 "nope" "alice" 0 = postAction engErr s0 "nope" "alice" 0 :=
  C5_absent_not_found engOk engErr s0 "nope" "alice" 0 (by decide)

/-- C9: `update_match` on an absent id is a silent no-op returning the state
unchanged; on a present id it changes only that entry's `state` and
`updated_at` (the new `updated_at` is the current clock), preserves the
entry's `id` and `created_at`, leaves every other entry's lookup unchanged,
and leaves the observer registry unchanged. -/
theorem C9_update_frame (s : AppState) (mid : MatchId) (ns : GameState) :
    (getMatch s mid = none → updateMatch s mid ns = s)
    ∧ (∀ m, getMatch s mid = some m →
        (∃ m', getMatch (updateMatch s mid ns) mid = some m'
          ∧ m'.state = ns ∧ m'.updated_at = s.clock
          ∧ m'.id = m.id ∧ m'.created_at = m.created_at)
        ∧ (∀ k, k ≠ mid → getMatch (updateMatch s mid ns) k = getMatch s k)
        ∧ (updateMatch s mid ns).observers = s.observers) := by
  refine ⟨fun h => updateMatch_absent ns h, fun m hm => ⟨?_, ?_, ?_⟩⟩
  · exact ⟨_, getMatch_updateMatch_self ns hm, rfl, rfl, rfl, rfl⟩
  · exact fun k hk => getMatch_updateMatch_ne ns (Ne.symm hk)
  · exact updateMatch_observers s mid ns

/-- Witness for C9: the no-op branch at an absent id and the frame conditions
at a present id, on a concrete state. -/
theorem C9_update_frame_witness :
    updateMatch s0 "nope" ns0 = s0
    ∧ (∃ m', getMatch (updateMatch s0 "m1" ns0) "m1" = some m'
        ∧ m'.state = ns0 ∧ m'.updated_at = s0.clock
        ∧ m'.id = m0.id ∧ m'.created_at = m0.created_at)
    ∧ getMatch (updateMatch s0 "m1" ns0) "other" = getMatch s0 "other"
    ∧ (updateMatch s0 "m1" ns0).observers = s0.observers :=
  ⟨(C9_update_frame s0 "nope" ns0).1 (by decide),
   ((C9_update_frame s0 "m1" ns0).2 m0 (by decide)).1,
   ((C9_update_frame s0 "m1" ns0).2 m0 (by decide)).2.1 "other" (by decide),
   ((C9_update_frame s0 "m1" ns0).2 m0 (by decide)).2.2⟩

/-- C10: the `AppState` value returned by `AppState::new` has an empty match
map and an empty observer map — every lookup performed on it returns absence —
while the three bootstrap example matches are only handed to the separately
spawned initialization task, whose later run (`runInitTask`) is what inserts
them into the store. -/
theorem C10_constructor_empty (c k : Nat) :
    ((AppState.new c k).1).matchesMap = []
    ∧ ((AppState.new c k).1).observers = []
    ∧ (∀ mid, getMatch (AppState.new c k).1 mid = none)
    ∧ ((AppState.new c k).2).length = 3
    ∧ getMatch (runInitTask (AppState.new c k).1 (AppState.new c k).2) (mkId k)
        = some (Match.new c k "alice" "bob")
    ∧ getMatch (runInitTask (AppState.new c k).1 (AppState.new c k).2) (mkId (k + 1))
        = some (Match.new (c + 1) (k + 1) "player1" "player2")
    ∧ getMatch (runInitTask (AppState.new c k).1 (AppState.new c k).2) (mkId (k + 2))
        = some (Match.new (c + 2) (k + 2) "human" "ai") := by
  have h20 : mkId (k + 2) ≠ mkId k := fun h => by have := mkId_injective h; omega
  have h10 : mkId (k + 1) ≠ mkId k := fun h => by have := mkId_injective h; omega
  have h21 : mkId (k + 2) ≠ mkId (k + 1) := fun h => by have := mkId_injective h; omega
  refine ⟨rfl, rfl, fun mid => rfl, rfl, ?_, ?_, ?_⟩
  · show lookupA (mkId k)
      (insertA (mkId (k + 2)) (Match.new (c + 2) (k + 2) "human" "ai")
        (insertA (mkId (k + 1)) (Match.new (c + 1) (k + 1) "player1" "player2")
          (insertA (mkId k) (Match.new c k "alice" "bob") []))) = _
    rw [lookupA_insertA_ne _ h20, lookupA_insertA_ne _ h10, lookupA_insertA_self]
  · show lookupA (mkId (k + 1))
      (insertA (mkId (k + 2)) (Match.new (c + 2) (k + 2) "human" "ai")
        (insertA (mkId (k + 1)) (Match.new (c + 1) (k + 1) "player1" "player2")
          (insertA (mkId k) (Match.new c k "alice" "bob") []))) = _
    rw [lookupA_insertA_ne _ h21, lookupA_insertA_self]
  · show lookupA (mkId (k + 2))
      (insertA (mkId (k + 2)) (Match.new (c + 2) (k + 2) "human" "ai")
        (insertA (mkId (k + 1)) (Match.new (c + 1) (k + 1) "player1" "player2")
          (insertA (mkId k) (Match.new c k "alice" "bob") []))) = _
    rw [lookupA_insertA_self]

/-- C6: `create_match` is total (never fails); with the fresh UUID modelled as
a fresh-nonce counter, the returned id is the counter's current rendering and
differs from the rendering of every previously consumed counter value — so
from every previously allocated identity; the inserted record's state is the
engine constructor's initial state for `(a, b)`, its player identity fields
equal `(a, b)`, and immediately after creation `get` on the returned id finds
it with `created_at = updated_at`. -/
theorem C6_create_fresh (s : AppState) (a b : PlayerId) :
    (createMatch s a b).1 = mkId s.uuidCtr
    ∧ (∀ j, j < s.uuidCtr → mkId j ≠ (createMatch s a b).1)
    ∧ ∃ m, getMatch (createMatch s a b).2 (createMatch s a b).1 = some m
        ∧ m.state = GameState.new a b
        ∧ m.state.players = (a, b)
        ∧ m.created_at = m.updated_at := by
  refine ⟨rfl, ?_, ?_⟩
  · intro j hj h
    have hj' : j = s.uuidCtr := mkId_injective h
    omega
  · refine ⟨Match.new s.clock s.uuidCtr a b, ?_, rfl, rfl, rfl⟩
    exact lookupA_insertA_self (mkId s.uuidCtr) (Match.new s.clock s.uuidCtr a b) s.matchesMap

/-- Witness for C6 at a concrete state (`s0.uuidCtr = 2`, so counter value `1`
was previously consumed). -/
theorem C6_create_fresh_witness :
    (createMatch s0 "x" "y").1 = mkId s0.uuidCtr
    ∧ mkId 1 ≠ (createMatch s0 "x" "y").1
    ∧ ∃ m, getMatch (createMatch s0 "x" "y").2 (createMatch s0 "x" "y").1 = some m
        ∧ m.state = GameState.new "x" "y"
        ∧ m.state.players = ("x", "y")
        ∧ m.created_at = m.updated_at :=
  ⟨(C6_create_fresh s0 "x" "y").1,
   (C6_create_fresh s0 "x" "y").2.1 1 (by decide),
   (C6_create_fresh s0 "x" "y").2.2⟩

/-- C3 counterexample, refuting two conjuncts of the claim. First, in `sMix`
the closed channel under `"m1"` fails its send during `notify_observers`, yet
afterwards it is still registered there, unchanged: the function holds only a
read lock and ignores send errors, so it never removes a channel. Second, in
`sStall` the first channel under `"m1"` is open but stalled with a full
buffer, so the loop suspends on its awaited send and the healthy open channel
behind it receives nothing within the call: the unresponsiveness of one
channel does block delivery to another channel of the same match. -/
theorem C3_notify_no_prune_and_blocking_cex :
    (txClosed.closed = true
      ∧ lookupA "m1" (notifyObservers sMix "m1" msg0).observers
          = some [txClosed, { closed := false, sent := [msg0] }])
    ∧ (txStalled.closed = false
      ∧ fullStalled txStalled = true
      ∧ lookupA "m1" (notifyObserversSeq sStall "m1" msg0 fullStalled).observers
          = some [txStalled, txOpen]
      ∧ txOpen.sent = []) := by
  exact ⟨⟨rfl, by decide⟩, rfl, by decide, by decide, rfl⟩

/-- C3 amended: on every `notify_observers(match_id, payload)` call the sends
are attempted sequentially, in registration order, to the channels under the
match id; no channel is ever removed by the call (the registry keeps the same
keys and the same number of channels under each key, and other match ids are
untouched); a channel whose send fails (closed receiver) has the failure
silently ignored and stays registered unchanged; when no channel is stalled
with a full buffer, every open channel receives the payload — so a closed
channel's failure does not block or prevent delivery to the others; however,
the sends are awaited one at a time, so an open channel whose bounded buffer
is full and whose receiver does not drain suspends the loop at its position,
and the channels after it in the collection receive nothing within the call:
delivery to the remaining channels is not protected against one channel's
unresponsiveness. -/
theorem C3_notify_delivers_without_prune (s : AppState) (mid : MatchId) (msg : Msg)
    (full : Sender → Bool) :
    ((notifyObserversSeq s mid msg full).observers.map Prod.fst
        = s.observers.map Prod.fst)
    ∧ (∀ k, k ≠ mid →
        lookupA k (notifyObserversSeq s mid msg full).observers
          = lookupA k s.observers)
    ∧ (∀ l, lookupA mid s.observers = some l →
        lookupA mid (notifyObserversSeq s mid msg full).observers
          = some (deliverSeq msg full l)
        ∧ (deliverSeq msg full l).length = l.length
        ∧ (∀ j c, l.get? j = some c → c.closed = true →
            (deliverSeq msg full l).get? j = some c)
        ∧ ((∀ c ∈ l, full c = false) →
            deliverSeq msg full l = l.map (sendMsg msg)
            ∧ (∀ c ∈ l, c.closed = false → (sendMsg msg c).sent = c.sent ++ [msg]))
        ∧ (∀ l1 c l2, l = l1 ++ c :: l2 →
            (∀ e ∈ l1, e.closed = true ∨ full e = false) →
            c.closed = false → full c = true →
            deliverSeq msg full l = deliverSeq msg full l1 ++ c :: l2)) := by
  refine ⟨adjustA_map_fst mid _ s.observers, ?_, ?_⟩
  · intro k hk
    exact lookupA_adjustA_ne _ (Ne.symm hk) s.observers
  · intro l hl
    refine ⟨?_, deliverSeq_length msg full l, deliverSeq_closed_get msg full l, ?_, ?_⟩
    · show lookupA mid (adjustA mid (deliverSeq msg full) s.observers) = _
      rw [lookupA_adjustA_self, hl]
      rfl
    · intro hnf
      exact ⟨deliverSeq_no_full msg full l hnf,
             fun c _ hc => by rw [sendMsg_open msg hc]⟩
    · intro l1 c l2 heq h1 hc hf
      rw [heq]
      exact deliverSeq_blocked msg full l1 c l2 h1 hc hf

/-- Witness for the amended C3: the no-stall instance on `sMix` (closed and
open channel under `"m1"`, unrelated id `"m2"`) and the blocking instance on
`sStall` (stalled channel registered ahead of a healthy one). -/
theorem C3_notify_delivers_without_prune_witness :
    ((notifyObserversSeq sMix "m1" msg0 (fun _ => false)).observers.map Prod.fst
        = sMix.observers.map Prod.fst)
    ∧ lookupA "m2" (notifyObserversSeq sMix "m1" msg0 (fun _ => false)).observers
        = lookupA "m2" sMix.observers
    ∧ lookupA "m1" (notifyObserversSeq sMix "m1" msg0 (fun _ => false)).observers
        = some (deliverSeq msg0 (fun _ => false) [txClosed, txOpen])
    ∧ (deliverSeq msg0 (fun _ => false) [txClosed, txOpen]).length
        = [txClosed, txOpen].length
    ∧ (deliverSeq msg0 (fun _ => false) [txClosed, txOpen]).get? 0 = some txClosed
    ∧ deliverSeq msg0 (fun _ => false) [txClosed, txOpen]
        = [txClosed, txOpen].map (sendMsg msg0)
    ∧ (sendMsg msg0 txOpen).sent = txOpen.sent ++ [msg0]
    ∧ deliverSeq msg0 fullStalled [txStalled, txOpen]
        = deliverSeq msg0 fullStalled [] ++ txStalled :: [txOpen] :=
  ⟨(C3_notify_delivers_without_prune sMix "m1" msg0 (fun _ => false)).1,
   (C3_notify_delivers_without_prune sMix "m1" msg0 (fun _ => false)).2.1 "m2"
     (by decide),
   ((C3_notify_delivers_without_prune sMix "m1" msg0 (fun _ => false)).2.2
      [txClosed, txOpen] (by decide)).1,
   ((C3_notify_delivers_without_prune sMix "m1" msg0 (fun _ => false)).2.2
      [txClosed, txOpen] (by decide)).2.1,
   ((C3_notify_delivers_without_prune sMix "m1" msg0 (fun _ => false)).2.2
      [txClosed, txOpen] (by decide)).2.2.1 0 txClosed (by decide) (by decide),
   (((C3_notify_delivers_without_prune sMix "m1" msg0 (fun _ => false)).2.2
      [txClosed, txOpen] (by decide)).2.2.2.1 (by decide)).1,
   (((C3_notify_delivers_without_prune sMix "m1" msg0 (fun _ => false)).2.2
      [txClosed, txOpen] (by decide)).2.2.2.1 (by decide)).2 txOpen (by decide)
     (by decide),
   ((C3_notify_delivers_without_prune sStall "m1" msg0 fullStalled).2.2
      [txStalled, txOpen] (by decide)).2.2.2.2 [] txStalled [txOpen]
     (by decide) (by decide) (by decide) (by decide)⟩

/-- C4: after a successful mutation of an existing match, a subsequent `get`
returns a record whose state is exactly the state the engine returned, and
whose `updated_at` strictly exceeds its pre-mutation value. The hypothesis
`m.updated_at < s.clock` is the monotone-clock reading of real time: the
stored timestamp came from an earlier `now()` call, so it is below the current
clock. -/
theorem C4_mutate_commits_engine_state
    (eng : Engine) (s : AppState) (mid : MatchId) (pid : PlayerId) (act : Action)
    (m : Match) (ns : GameState)
    (hm : getMatch s mid = some m) (heng : eng m.state pid act = Except.ok ns)
    (hts : m.updated_at < s.clock) :
    ∃ m', getMatch (postAction eng s mid pid act).1 mid = some m'
      ∧ m'.state = ns ∧ m.updated_at < m'.updated_at := by
  have hpost : (postAction eng s mid pid act).1
      = notifyObservers (updateMatch s mid ns) mid (.stateUpdate mid ns) := by
    simp [postAction, hm, heng]
  rw [hpost]
  exact ⟨{ m with state := ns, updated_at := s.clock },
    getMatch_updateMatch_self ns hm, rfl, hts⟩

/-- Witness for C4 at a concrete state (`m0.updated_at = 0 < 5 = s0.clock`). -/
theorem C4_mutate_commits_engine_state_witness :
    ∃ m', getMatch (postAction engOk s0 "m1" "alice" 0).1 "m1" = some m'
      ∧ m'.state = ns0 ∧ m0.updated_at < m'.updated_at :=
  C4_mutate_commits_engine_state engOk s0 "m1" "alice" 0 m0 ns0
    (by decide) (by rfl) (by decide)

/-- C8: subscribing an observer to a match id absent from the store succeeds —
the fresh open channel is appended to the registry under that id and no
initial-state frame is sent — and if the next `create_match` call (which, with
the fresh-nonce counter at `s.uuidCtr`, allocates precisely that id) brings
the match into existence and a successful mutation follows, the resulting
`state_update` is delivered to the already-registered channel. -/
theorem C8_subscribe_unknown_then_deliver
    (s : AppState) (a b pid : PlayerId) (act : Action) (eng : Engine) (ns : GameState)
    (hnone : getMatch s (mkId s.uuidCtr) = none)
    (heng : eng (GameState.new a b) pid act = Except.ok ns) :
    (wsConnect s (mkId s.uuidCtr)).2 = none
    ∧ lookupA (mkId s.uuidCtr) ((wsConnect s (mkId s.uuidCtr)).1).observers
        = some (((lookupA (mkId s.uuidCtr) s.observers).getD [])
                ++ [{ closed := false, sent := [] }])
    ∧ (createMatch (wsConnect s (mkId s.uuidCtr)).1 a b).1 = mkId s.uuidCtr
    ∧ lookupA (mkId s.uuidCtr)
        ((postAction eng (createMatch (wsConnect s (mkId s.uuidCtr)).1 a b).2
            (mkId s.uuidCtr) pid act).1).observers
      = some ((((lookupA (mkId s.uuidCtr) s.observers).getD []).map
                 (sendMsg (.stateUpdate (mkId s.uuidCtr) ns)))
              ++ [{ closed := false, sent := [.stateUpdate (mkId s.uuidCtr) ns] }]) := by
  have hws := wsConnect_absent hnone
  rw [hws]
  have hobs1 : lookupA (mkId s.uuidCtr)
      (addObserver s (mkId s.uuidCtr) { closed := false, sent := [] }).observers
      = some (((lookupA (mkId s.uuidCtr) s.observers).getD [])
              ++ [{ closed := false, sent := [] }]) :=
    lookupA_pushObserver_self (mkId s.uuidCtr) _ s.observers
  refine ⟨rfl, hobs1, rfl, ?_⟩
  have hm2 : getMatch
      (createMatch (addObserver s (mkId s.uuidCtr) { closed := false, sent := [] }) a b).2
      (mkId s.uuidCtr)
      = some (Match.new s.clock s.uuidCtr a b) :=
    lookupA_insertA_self (mkId s.uuidCtr) (Match.new s.clock s.uuidCtr a b) s.matchesMap
  have hstep : (postAction eng
      (createMatch (addObserver s (mkId s.uuidCtr) { closed := false, sent := [] }) a b).2
      (mkId s.uuidCtr) pid act).1
      = notifyObservers
          (updateMatch
            (createMatch (addObserver s (mkId s.uuidCtr)
              { closed := false, sent := [] }) a b).2
            (mkId s.uuidCtr) ns)
          (mkId s.uuidCtr) (.stateUpdate (mkId s.uuidCtr) ns) := by
    have heng2 : eng (Match.new s.clock s.uuidCtr a b).state pid act = Except.ok ns := heng
    simp only [postAction, hm2]
    rw [heng2]
  rw [hstep]
  show lookupA (mkId s.uuidCtr)
      (adjustA (mkId s.uuidCtr)
        (List.map (sendMsg (.stateUpdate (mkId s.uuidCtr) ns)))
        (updateMatch _ (mkId s.uuidCtr) ns).observers) = _
  rw [updateMatch_observers, lookupA_adjustA_self]
  show (lookupA (mkId s.uuidCtr)
      (addObserver s (mkId s.uuidCtr) { closed := false, sent := [] }).observers).map _ = _
  rw [hobs1]
  simp [sendMsg]

/-- Witness for C8 at a concrete state: `s0.uuidCtr = 2`, so the subscription
targets `mkId 2`, which is absent from `s0` and is the id the next
`create_match` allocates. -/
theorem C8_subscribe_unknown_then_deliver_witness :
    (wsConnect s0 (mkId s0.uuidCtr)).2 = none
    ∧ lookupA (mkId s0.uuidCtr) ((wsConnect s0 (mkId s0.uuidCtr)).1).observers
        = some (((lookupA (mkId s0.uuidCtr) s0.observers).getD [])
                ++ [{ closed := false, sent := [] }])
    ∧ (createMatch (wsConnect s0 (mkId s0.uuidCtr)).1 "x" "y").1 = mkId s0.uuidCtr
    ∧ lookupA (mkId s0.uuidCtr)
        ((postAction engOk (createMatch (wsConnect s0 (mkId s0.uuidCtr)).1 "x" "y").2
            (mkId s0.uuidCtr) "x" 0).1).observers
      = some ((((lookupA (mkId s0.uuidCtr) s0.observers).getD []).map
                 (sendMsg (.stateUpdate (mkId s0.uuidCtr)
                    nsxy)))
              ++ [{ closed := false,
                    sent := [.stateUpdate (mkId s0.uuidCtr)
                      nsxy] }]) :=
  C8_subscribe_unknown_then_deliver s0 "x" "y" "x" 0 engOk
    nsxy (by decide) (by rfl)

/-- C7: if `POST /action` is applied sequentially n times to one match, each
action accepted by the engine, while one open observer channel stays
subscribed throughout, then that channel receives exactly n `state_update`
messages, appended in the order of the mutations, the i-th carrying the i-th
committed state; and the connection's forwarding loop (healthy socket) passes
them on as frames unchanged and in order — no reordering, no duplication, no
drop. -/
theorem C7_sequential_mutations_deliver_in_order
    (eng : Engine) (s : AppState) (mid : MatchId) (m : Match)
    (acts : List (PlayerId × Action)) (sts : List GameState)
    (l : List Sender) (j : Nat) (tx : Sender)
    (hm : getMatch s mid = some m)
    (hrun : engineRun eng m.state acts = some sts)
    (hobs : lookupA mid s.observers = some l)
    (hj : l.get? j = some tx)
    (hop : tx.closed = false) :
    sts.length = acts.length
    ∧ (∃ l', lookupA mid (runActions eng s mid acts).observers = some l'
        ∧ l'.get? j = some { closed := false,
                             sent := tx.sent ++ sts.map (Msg.stateUpdate mid) })
    ∧ forwardFrames (fun _ => true) (sts.map (Msg.stateUpdate mid))
        = sts.map (Msg.stateUpdate mid) :=
  ⟨engineRun_length eng acts m.state sts hrun,
   runActions_observer_stream eng mid acts s m sts l j tx hm hrun hobs hj hop,
   forwardFrames_healthy _⟩

/-- Witness for C7: two sequential mutations on `s0` with the open observer
`txOpen` subscribed; the channel ends with exactly the two `state_update`
messages in mutation order. -/
theorem C7_sequential_mutations_deliver_in_order_witness :
    ([ns0, g2].length = [(("alice" : PlayerId), (0 : Action)), ("bob", 1)].length)
    ∧ (∃ l', lookupA "m1"
          (runActions engOk s0 "m1" [("alice", 0), ("bob", 1)]).observers = some l'
        ∧ l'.get? 0
            = some { closed := false,
                     sent := txOpen.sent ++ [ns0, g2].map (Msg.stateUpdate "m1") })
    ∧ forwardFrames (fun _ => true) ([ns0, g2].map (Msg.stateUpdate "m1"))
        = [ns0, g2].map (Msg.stateUpdate "m1") :=
  C7_sequential_mutations_deliver_in_order engOk s0 "m1" m0
    [("alice", 0), ("bob", 1)] [ns0, g2] [txOpen] 0 txOpen
    (by decide) (by decide) (by decide) (by decide) (by decide)

end TaticServer
